import Mathlib

/-!
Verification of the Campus-connect client-side cache model.

This file gives a shallow embedding, in Lean, of the state-manipulating
parts of the Campus-connect mobile client:

* the realtime merge logic of the posts subscription handler
  (src/hooks/usePosts.ts, subscription effect);
* the ownership-constrained update/delete of the posts service
  (src/services/postsService.ts) over an explicit row store;
* the offline download handler of the library screen (handleDownload),
  with its deterministic filename-key derivation;
* the statistics singleton service (src/services/statsService.ts) as an
  explicit state machine over counters and a listener set;
* the registration outcome logic of the auth context
  (src/context/AuthContext.tsx, register).

Backend calls are modelled by passing the backend response as an explicit
argument; thrown JavaScript exceptions are modelled with Except.
-/

namespace CampusConnect

/-- Post type enumeration of the posts table row. -/
inductive PostType where
  | announcement
  | event
  | discussion
  | help
  deriving DecidableEq, Repr

/-- The author profile subset joined onto each post
(id, name, user_type, department, email). -/
structure AuthorProfile where
  id : String
  name : String
  user_type : String
  department : Option String
  email : String
  deriving DecidableEq, Repr

/-- A post as cached by the client: the posts row joined with the author
profile subset and the stubbed derived fields (likes_count,
comments_count, user_has_liked). -/
structure PostWithProfile where
  id : String
  title : String
  content : String
  type : PostType
  author_id : String
  created_at : String
  updated_at : String
  profiles : Option AuthorProfile
  likes_count : Nat
  comments_count : Nat
  user_has_liked : Bool
  deriving DecidableEq, Repr

/-- The `payload.new` object of a realtime UPDATE event: a posts-row
snapshot keyed by id, where each column key may or may not be present
(JavaScript object spread only overwrites keys that are present). -/
structure PostRowPatch where
  id : String
  title : Option String
  content : Option String
  type : Option PostType
  author_id : Option String
  created_at : Option String
  updated_at : Option String
  deriving DecidableEq, Repr

/-- The JavaScript shallow merge of an UPDATE payload into a cached entry:
every row column present in the payload overwrites the cached value, keys
absent from the payload (and the joined/derived fields, which the payload
never carries) keep their cached value. -/
def mergePost (post : PostWithProfile) (p : PostRowPatch) : PostWithProfile :=
  { post with
    id := p.id
    title := p.title.getD post.title
    content := p.content.getD post.content
    type := p.type.getD post.type
    author_id := p.author_id.getD post.author_id
    created_at := p.created_at.getD post.created_at
    updated_at := p.updated_at.getD post.updated_at }

/-- A realtime change event as seen by the posts subscription handler.
An INSERT event triggers refreshPosts, a full reload: it carries the list
the reload delivers, or none when the reload failed (in which case the
cached collection is left unchanged). -/
inductive PostEvent where
  | insert (reloaded : Option (List PostWithProfile))
  | update (patch : PostRowPatch)
  | delete (oldId : String)
  deriving DecidableEq, Repr

/-- One step of the subscription handler of usePosts: INSERT replaces the
collection with the reloaded list (or keeps it on reload failure), UPDATE
shallow-merges into every entry with a matching id at its current
position, DELETE filters out the entry with the matching old id. -/
def applyPostEvent (posts : List PostWithProfile) : PostEvent → List PostWithProfile
  | .insert none => posts
  | .insert (some reloaded) => reloaded
  | .update p => posts.map fun post => if post.id = p.id then mergePost post p else post
  | .delete oldId => posts.filter fun post => post.id ≠ oldId

/-- Folding a sequence of realtime events over the cached collection. -/
def applyPostEvents (posts : List PostWithProfile) (evs : List PostEvent) :
    List PostWithProfile :=
  evs.foldl applyPostEvent posts

/-- Whether an event is a DELETE for the given id. -/
def deletesId (i : String) : PostEvent → Bool
  | .delete oldId => oldId = i
  | _ => false

/-- Whether an event triggers a full reload (only INSERT does). -/
def isReload : PostEvent → Bool
  | .insert _ => true
  | _ => false

/-- The UPDATE payloads of an event sequence that target the given id,
in arrival order. -/
def patchesFor (evs : List PostEvent) (i : String) : List PostRowPatch :=
  evs.filterMap fun e =>
    match e with
    | .update p => if p.id = i then some p else none
    | _ => none

/-- Shallow-merging a list of UPDATE payloads into an entry, in order. -/
def mergeAll (post : PostWithProfile) (ps : List PostRowPatch) : PostWithProfile :=
  ps.foldl mergePost post

/-- The fate of one cached entry under an event sequence: removed when
some event deletes its id, otherwise the entry with all of its UPDATE
payloads merged in order. -/
def liveEntry (evs : List PostEvent) (post : PostWithProfile) : Option PostWithProfile :=
  if evs.any (deletesId post.id) then none
  else some (mergeAll post (patchesFor evs post.id))

theorem mergePost_id (post : PostWithProfile) (p : PostRowPatch) :
    (mergePost post p).id = p.id := rfl

theorem filterMap_filter_comm {α β : Type} (p : α → Bool) (f : α → Option β) :
    ∀ l : List α,
      (l.filter p).filterMap f = l.filterMap (fun a => if p a then f a else none)
  | [] => rfl
  | a :: t => by
    cases hpa : p a <;>
      simp [List.filter_cons, List.filterMap_cons, hpa, filterMap_filter_comm p f t]

theorem liveEntry_update (u : PostRowPatch) (rest : List PostEvent)
    (post : PostWithProfile) :
    liveEntry (PostEvent.update u :: rest) post
      = liveEntry rest (if post.id = u.id then mergePost post u else post) := by
  by_cases h : post.id = u.id
  · simp [liveEntry, deletesId, patchesFor, mergeAll, mergePost_id, h,
      List.filterMap_cons, List.any_cons]
  · simp [liveEntry, deletesId, patchesFor, mergeAll, h, List.filterMap_cons,
      List.any_cons, Ne.symm h]

theorem liveEntry_delete (d : String) (rest : List PostEvent)
    (post : PostWithProfile) :
    liveEntry (PostEvent.delete d :: rest) post
      = if post.id ≠ d then liveEntry rest post else none := by
  by_cases h : post.id = d
  · simp [liveEntry, deletesId, patchesFor, h, List.filterMap_cons, List.any_cons]
  · have hd : ¬ d = post.id := fun hdd => h hdd.symm
    simp [liveEntry, deletesId, patchesFor, h, hd, List.filterMap_cons, List.any_cons]

theorem applyPostEvents_closed_form :
    ∀ (evs : List PostEvent) (posts : List PostWithProfile),
      evs.all (fun e => !isReload e) = true →
      applyPostEvents posts evs = posts.filterMap (liveEntry evs)
  | [], posts, _ => by
    have h1 : liveEntry ([] : List PostEvent) = some := by
      funext post
      simp [liveEntry, mergeAll, patchesFor]
    simp [applyPostEvents, h1, List.filterMap_some]
  | PostEvent.insert r :: rest, posts, h => by
    simp [isReload, List.all_cons] at h
  | PostEvent.update u :: rest, posts, h => by
    have hrest : rest.all (fun e => !isReload e) = true := by
      simpa [List.all_cons, isReload] using h
    have step : applyPostEvents posts (PostEvent.update u :: rest)
        = applyPostEvents (applyPostEvent posts (PostEvent.update u)) rest := rfl
    rw [step, applyPostEvents_closed_form rest _ hrest]
    show (posts.map _).filterMap _ = _
    rw [List.filterMap_map]
    exact congrArg (fun g => List.filterMap g posts)
      (funext fun post => (liveEntry_update u rest post).symm)
  | PostEvent.delete d :: rest, posts, h => by
    have hrest : rest.all (fun e => !isReload e) = true := by
      simpa [List.all_cons, isReload] using h
    have step : applyPostEvents posts (PostEvent.delete d :: rest)
        = applyPostEvents (applyPostEvent posts (PostEvent.delete d)) rest := rfl
    rw [step, applyPostEvents_closed_form rest _ hrest]
    show (posts.filter _).filterMap _ = _
    rw [filterMap_filter_comm]
    exact congrArg (fun g => List.filterMap g posts) (funext fun post => by
      by_cases hd : post.id = d <;> simp [liveEntry_delete, hd])

theorem patchesFor_mem_id (evs : List PostEvent) (i : String) (p : PostRowPatch)
    (hp : p ∈ patchesFor evs i) : p.id = i := by
  rcases List.mem_filterMap.mp hp with ⟨e, _, he⟩
  cases e with
  | insert r => simp at he
  | update q =>
    by_cases hq : q.id = i
    · simp [hq] at he
      exact he ▸ hq
    · simp [hq] at he
  | delete d => simp at he

theorem mergeAll_id :
    ∀ (ps : List PostRowPatch) (post : PostWithProfile),
      (∀ p ∈ ps, p.id = post.id) → (mergeAll post ps).id = post.id
  | [], _, _ => rfl
  | p :: t, post, h => by
    have hp : p.id = post.id := h p (List.mem_cons_self p t)
    have ht : ∀ q ∈ t, q.id = (mergePost post p).id := by
      intro q hq
      rw [mergePost_id, hp]
      exact h q (List.mem_cons_of_mem p hq)
    calc (mergeAll post (p :: t)).id
        = (mergeAll (mergePost post p) t).id := rfl
      _ = (mergePost post p).id := mergeAll_id t (mergePost post p) ht
      _ = post.id := by rw [mergePost_id, hp]

theorem liveEntry_id (evs : List PostEvent) (post q : PostWithProfile)
    (h : liveEntry evs post = some q) : q.id = post.id := by
  unfold liveEntry at h
  by_cases hd : evs.any (deletesId post.id) = true
  · simp [hd] at h
  · simp [hd] at h
    rw [← h]
    exact mergeAll_id _ _ (fun p hp => patchesFor_mem_id evs post.id p hp)

theorem filterMap_liveEntry_ids_sublist (evs : List PostEvent) :
    ∀ posts : List PostWithProfile,
      ((posts.filterMap (liveEntry evs)).map PostWithProfile.id).Sublist
        (posts.map PostWithProfile.id)
  | [] => List.Sublist.refl _
  | post :: t => by
    cases hq : liveEntry evs post with
    | none =>
      simp only [List.filterMap_cons, hq, List.map_cons]
      exact (filterMap_liveEntry_ids_sublist evs t).cons _
    | some q =>
      simp only [List.filterMap_cons, hq, List.map_cons, liveEntry_id evs post q hq]
      exact (filterMap_liveEntry_ids_sublist evs t).cons₂ _

/-- A sample cached post entry used for concrete instantiations. -/
def samplePost (i t c : String) : PostWithProfile :=
  { id := i, title := t, content := c, type := PostType.discussion,
    author_id := "u1", created_at := "2024-01-01", updated_at := "2024-01-01",
    profiles := none, likes_count := 0, comments_count := 0, user_has_liked := false }

/-- Concrete cached collection for the C1 witness. -/
def c1Posts : List PostWithProfile := [samplePost "a" "T" "C", samplePost "b" "S" "D"]

/-- Concrete realtime UPDATE payload carrying only a new title. -/
def c1Patch : PostRowPatch :=
  { id := "a", title := some "T2", content := none, type := none,
    author_id := none, created_at := none, updated_at := none }

/-- Concrete event sequence for the C1 witness. -/
def c1Events : List PostEvent := [PostEvent.update c1Patch, PostEvent.delete "b"]

/-- Claim C1: for every sequence of realtime INSERT/UPDATE/DELETE events
applied by the posts subscription handler, (i) an INSERT event replaces
the collection with the full reload it triggers (or keeps it when the
reload fails), and (ii) for the merge-only events since the last reload
point, the resulting collection is exactly the original collection with
each surviving entry shallow-merged, in order and at its original
position, with every UPDATE payload for its id; ids stay pairwise
distinct (one entry per live id), and no entry remains for an id hit by a
DELETE event. -/
theorem usePosts_realtime_merge_correct :
    (∀ (posts reloaded : List PostWithProfile) (rest : List PostEvent),
        applyPostEvents posts (PostEvent.insert (some reloaded) :: rest)
          = applyPostEvents reloaded rest
        ∧ applyPostEvents posts (PostEvent.insert none :: rest)
          = applyPostEvents posts rest)
    ∧ (∀ (evs : List PostEvent) (posts : List PostWithProfile),
        evs.all (fun e => !isReload e) = true →
          applyPostEvents posts evs = posts.filterMap (liveEntry evs)
          ∧ ((posts.map PostWithProfile.id).Nodup →
              ((applyPostEvents posts evs).map PostWithProfile.id).Nodup)
          ∧ (∀ i, evs.any (deletesId i) = true →
              ∀ q ∈ applyPostEvents posts evs, q.id ≠ i)) := by
  refine ⟨fun posts reloaded rest => ⟨rfl, rfl⟩, fun evs posts hno => ?_⟩
  have hcf := applyPostEvents_closed_form evs posts hno
  refine ⟨hcf, ?_, ?_⟩
  · intro hnd
    rw [hcf]
    exact hnd.sublist (filterMap_liveEntry_ids_sublist evs posts)
  · intro i hi q hq hqi
    rw [hcf] at hq
    rcases List.mem_filterMap.mp hq with ⟨post, _, hlive⟩
    have hqid : q.id = post.id := liveEntry_id evs post q hlive
    have hpid : post.id = i := by rw [← hqid]; exact hqi
    simp [liveEntry, hpid, hi] at hlive

/-- Witness for C1 at a concrete collection and event sequence: an UPDATE
with a new title for id a followed by a DELETE of id b. -/
theorem usePosts_realtime_merge_correct_witness :
    applyPostEvents c1Posts c1Events = c1Posts.filterMap (liveEntry c1Events)
    ∧ ((applyPostEvents c1Posts c1Events).map PostWithProfile.id).Nodup
    ∧ (mergePost (samplePost "a" "T" "C") c1Patch).id ≠ "b"
    ∧ applyPostEvents c1Posts (PostEvent.insert (some c1Posts) :: c1Events)
      = applyPostEvents c1Posts c1Events := by
  have h := usePosts_realtime_merge_correct
  have h2 := h.2 c1Events c1Posts (by decide)
  exact ⟨h2.1, h2.2.1 (by decide),
    h2.2.2 "b" (by decide) (mergePost (samplePost "a" "T" "C") c1Patch) (by decide),
    (h.1 c1Posts c1Posts c1Events).1⟩

/-- Claim C9: applying the same DELETE event twice to the cached posts
collection yields the same collection as applying it once; the second
application is a pure no-op. -/
theorem delete_event_idempotent (posts : List PostWithProfile) (i : String) :
    applyPostEvent (applyPostEvent posts (PostEvent.delete i)) (PostEvent.delete i)
      = applyPostEvent posts (PostEvent.delete i) := by
  simp [applyPostEvent, List.filter_filter]

/-- A stored posts-table row, as the remote mutations of PostsService
see it. -/
structure PostRow where
  id : String
  title : String
  content : String
  type : PostType
  author_id : String
  deriving DecidableEq, Repr

/-- The patch accepted by PostsService.updatePost (title, content, type
are each optional). -/
structure PostServicePatch where
  title : Option String
  content : Option String
  type : Option PostType
  deriving DecidableEq, Repr

/-- Applying an update patch to a stored row. -/
def applyRowPatch (r : PostRow) (p : PostServicePatch) : PostRow :=
  { r with
    title := p.title.getD r.title
    content := p.content.getD r.content
    type := p.type.getD r.type }

/-- The result shape of PostsService.updatePost. -/
structure UpdateResult where
  data : Option PostRow
  error : Option String
  deriving DecidableEq, Repr

/-- The result shape of PostsService.deletePost. -/
structure DeleteResult where
  success : Bool
  error : Option String
  deriving DecidableEq, Repr

/-- The row filter of the ownership-constrained mutations: both the id
and the author_id equality constraints of the remote query. -/
def ownedBy (postId userId : String) (r : PostRow) : Bool :=
  decide (r.id = postId ∧ r.author_id = userId)

/-- PostsService.updatePost over an explicit row store: the remote
update patches every row matching both id and author_id; the trailing
select-single returns the one affected row, or an error when the number
of affected rows is not exactly one (in particular when it is zero). -/
def updatePostService (db : List PostRow) (postId : String) (patch : PostServicePatch)
    (userId : String) : List PostRow × UpdateResult :=
  let db2 := db.map fun r => if ownedBy postId userId r then applyRowPatch r patch else r
  (db2,
    match db2.filter (ownedBy postId userId) with
    | [r] => { data := some r, error := none }
    | _ => { data := none, error := some "JSON object requested, no rows returned" })

/-- PostsService.deletePost over an explicit row store: the remote
delete removes every row matching both id and author_id and reports no
error even when zero rows matched, so the service returns success. -/
def deletePostService (db : List PostRow) (postId : String) (userId : String) :
    List PostRow × DeleteResult :=
  (db.filter fun r => !(ownedBy postId userId r),
   { success := true, error := none })

/-- Concrete row store for C2: one post authored by alice. -/
def c2Db : List PostRow :=
  [{ id := "p1", title := "T", content := "C", type := PostType.discussion,
     author_id := "alice" }]

/-- Concrete update patch for C2. -/
def c2Patch : PostServicePatch := { title := some "X", content := none, type := none }

/-- Counterexample to C2 as stated: a delete request by bob for a post
authored by alice affects zero rows and leaves the store unchanged, yet
PostsService.deletePost reports success with no error, because the
remote delete does not distinguish zero affected rows from one. -/
theorem deletePost_nonowner_reports_success :
    ("bob" : String) ≠ "alice"
    ∧ (deletePostService c2Db "p1" "bob").1 = c2Db
    ∧ (deletePostService c2Db "p1" "bob").2.success = true
    ∧ (deletePostService c2Db "p1" "bob").2.error = none := by decide

/-- Claim C2 (amended): when the requester is not the author of any row
with the requested id, both mutations are constrained by id and author_id
equality so zero rows are affected and the store is unchanged; the update
then returns a no-rows failure (data none, error present) via its
select-single step, but the delete, which has no row-count check, still
returns a success result. -/
theorem postsService_ownership_constrained (db : List PostRow) (postId : String)
    (patch : PostServicePatch) (userId : String)
    (hno : ∀ r ∈ db, r.id = postId → r.author_id ≠ userId) :
    (updatePostService db postId patch userId).1 = db
    ∧ (updatePostService db postId patch userId).2.data = none
    ∧ (updatePostService db postId patch userId).2.error.isSome = true
    ∧ (deletePostService db postId userId).1 = db
    ∧ (deletePostService db postId userId).2.success = true := by
  have hcond : ∀ r ∈ db, ownedBy postId userId r = false := by
    intro r hr
    simp only [ownedBy, decide_eq_false_iff_not, not_and]
    exact fun h1 => hno r hr h1
  have hmap : (db.map fun r =>
      if ownedBy postId userId r then applyRowPatch r patch else r) = db := by
    rw [show db = db.map id from (List.map_id db).symm]
    rw [List.map_map]
    exact List.map_congr_left fun r hr => by simp [hcond r hr]
  have hfilter : db.filter (ownedBy postId userId) = [] :=
    List.filter_eq_nil_iff.mpr fun r hr => by simp [hcond r hr]
  have hdel : db.filter (fun r => !(ownedBy postId userId r)) = db :=
    List.filter_eq_self.mpr fun r hr => by simp [hcond r hr]
  refine ⟨hmap, ?_, ?_, hdel, rfl⟩
  · show (match (db.map fun r =>
        if ownedBy postId userId r then applyRowPatch r patch else r).filter
          (ownedBy postId userId) with
      | [r] => ({ data := some r, error := none } : UpdateResult)
      | _ => { data := none,
               error := some "JSON object requested, no rows returned" }).data = none
    rw [hmap, hfilter]
  · show (match (db.map fun r =>
        if ownedBy postId userId r then applyRowPatch r patch else r).filter
          (ownedBy postId userId) with
      | [r] => ({ data := some r, error := none } : UpdateResult)
      | _ => { data := none,
               error := some "JSON object requested, no rows returned" }).error.isSome
        = true
    rw [hmap, hfilter]
    rfl

/-- Witness for the amended C2 at the concrete store: bob requesting
mutations on the post authored by alice. -/
theorem postsService_ownership_constrained_witness :
    (updatePostService c2Db "p1" c2Patch "bob").1 = c2Db
    ∧ (updatePostService c2Db "p1" c2Patch "bob").2.data = none
    ∧ (updatePostService c2Db "p1" c2Patch "bob").2.error.isSome = true
    ∧ (deletePostService c2Db "p1" "bob").1 = c2Db
    ∧ (deletePostService c2Db "p1" "bob").2.success = true :=
  postsService_ownership_constrained c2Db "p1" c2Patch "bob" (by decide)

/-- A remote file catalog entry as the library screen sees it. -/
structure LibraryFile where
  id : String
  name : String
  url : String
  type : String
  deriving DecidableEq, Repr

/-- The character replacement of the filename sanitizer: every character
outside the ASCII classes a-z, A-Z, 0-9 and the dot becomes an
underscore. -/
def sanitizeChar (c : Char) : Char :=
  if (('a' ≤ c ∧ c ≤ 'z') ∨ ('A' ≤ c ∧ c ≤ 'Z') ∨ ('0' ≤ c ∧ c ≤ '9') ∨ c = '.')
  then c else '_'

/-- The display-name sanitizer of handleDownload. -/
def sanitizeFileName (s : String) : String := s.map sanitizeChar

/-- The deterministic local filename key of handleDownload:
the file id, an underscore, and the sanitized display name. -/
def localFileName (f : LibraryFile) : String :=
  f.id ++ "_" ++ sanitizeFileName f.name

/-- The client-side download bookkeeping state: the in-memory
downloaded-set of filename keys, the log of keys for which a remote
transfer was actually performed, and the Download events recorded
remotely (file name and file id). -/
structure DownloadState where
  downloadedFiles : List String
  transfers : List String
  recordedDownloads : List (String × String)
  deriving DecidableEq, Repr

/-- The user-visible outcome of one handleDownload invocation. -/
inductive DownloadOutcome where
  | alreadyDownloaded
  | success
  | failure
  deriving DecidableEq, Repr

/-- handleDownload of the library screen: derive the filename key;
short-circuit with an already-downloaded outcome when the key is in the
downloaded-set; otherwise perform the remote transfer, whose status the
backend supplies; on status 200 add the key to the downloaded-set and
record a Download event remotely; on any other status report failure
without touching the downloaded-set or the remote download log. -/
def handleDownload (st : DownloadState) (f : LibraryFile) (status : Nat) :
    DownloadState × DownloadOutcome :=
  let key := localFileName f
  if key ∈ st.downloadedFiles then (st, .alreadyDownloaded)
  else if status = 200 then
    ({ downloadedFiles := key :: st.downloadedFiles,
       transfers := st.transfers ++ [key],
       recordedDownloads := st.recordedDownloads ++ [(f.name, f.id)] }, .success)
  else
    ({ st with transfers := st.transfers ++ [key] }, .failure)

/-- Claim C3: after a first succeeding download of a file whose key was
never transferred before, exactly one transfer for that key has
happened, and a second invocation for the same file reports an
already-downloaded outcome, changes nothing, and performs no second
transfer. -/
theorem handleDownload_idempotent (st : DownloadState) (f : LibraryFile)
    (s1 s2 : Nat)
    (h1 : (handleDownload st f s1).2 = DownloadOutcome.success)
    (hfresh : localFileName f ∉ st.transfers) :
    (handleDownload (handleDownload st f s1).1 f s2).2
        = DownloadOutcome.alreadyDownloaded
    ∧ (handleDownload (handleDownload st f s1).1 f s2).1 = (handleDownload st f s1).1
    ∧ (handleDownload st f s1).1.transfers.count (localFileName f) = 1
    ∧ (handleDownload (handleDownload st f s1).1 f s2).1.transfers.count
        (localFileName f) = 1 := by
  by_cases hc : localFileName f ∈ st.downloadedFiles
  · simp [handleDownload, hc] at h1
  · by_cases hs : s1 = 200
    · have hcount : st.transfers.count (localFileName f) = 0 :=
        List.count_eq_zero.mpr hfresh
      refine ⟨?_, ?_, ?_, ?_⟩ <;>
        simp [handleDownload, hc, hs, List.count_append, hcount]
    · simp [handleDownload, hc, hs] at h1

/-- Concrete file and state for the C3 witness. -/
def c3File : LibraryFile :=
  { id := "f1", name := "Notes 1.pdf", url := "https://remote/f1", type := "application/pdf" }

/-- Fresh download state for the C3 witness. -/
def c3State : DownloadState :=
  { downloadedFiles := [], transfers := [], recordedDownloads := [] }

/-- Witness for C3: downloading the concrete file twice from the fresh
state, the first transfer succeeding with status 200. -/
theorem handleDownload_idempotent_witness :
    (handleDownload (handleDownload c3State c3File 200).1 c3File 200).2
        = DownloadOutcome.alreadyDownloaded
    ∧ (handleDownload (handleDownload c3State c3File 200).1 c3File 200).1
        = (handleDownload c3State c3File 200).1
    ∧ (handleDownload c3State c3File 200).1.transfers.count (localFileName c3File) = 1
    ∧ (handleDownload (handleDownload c3State c3File 200).1 c3File 200).1.transfers.count
        (localFileName c3File) = 1 :=
  handleDownload_idempotent c3State c3File 200 200 (by decide) (by decide)

/-- Claim C4: when the key is not yet in the downloaded-set, a transfer
completing with a status other than 200 reports failure and leaves both
the downloaded-set and the remote download log unchanged, while only a
status-200 transfer adds the key to the downloaded-set, records the
download remotely, and reports success. -/
theorem handleDownload_non200_failure (st : DownloadState) (f : LibraryFile)
    (status : Nat)
    (hnotyet : localFileName f ∉ st.downloadedFiles) :
    (status ≠ 200 →
      (handleDownload st f status).2 = DownloadOutcome.failure
      ∧ (handleDownload st f status).1.downloadedFiles = st.downloadedFiles
      ∧ (handleDownload st f status).1.recordedDownloads = st.recordedDownloads)
    ∧ (status = 200 →
      (handleDownload st f status).2 = DownloadOutcome.success
      ∧ (handleDownload st f status).1.downloadedFiles
          = localFileName f :: st.downloadedFiles
      ∧ (handleDownload st f status).1.recordedDownloads
          = st.recordedDownloads ++ [(f.name, f.id)]) := by
  constructor
  · intro hs
    refine ⟨?_, ?_, ?_⟩ <;> simp [handleDownload, hnotyet, hs]
  · intro hs
    refine ⟨?_, ?_, ?_⟩ <;> simp [handleDownload, hnotyet, hs]

/-- Concrete file for the C4 witness. -/
def c4File : LibraryFile :=
  { id := "f2", name := "Slides 2.pdf", url := "https://remote/f2", type := "application/pdf" }

/-- Fresh download state for the C4 witness. -/
def c4State : DownloadState :=
  { downloadedFiles := [], transfers := [], recordedDownloads := [] }

/-- Witness for C4 at status 404 from the fresh state. -/
theorem handleDownload_non200_failure_witness :
    (handleDownload c4State c4File 404).2 = DownloadOutcome.failure
    ∧ (handleDownload c4State c4File 404).1.downloadedFiles = c4State.downloadedFiles
    ∧ (handleDownload c4State c4File 404).1.recordedDownloads
        = c4State.recordedDownloads :=
  (handleDownload_non200_failure c4State c4File 404 (by decide)).1 (by decide)

theorem string_data_inj (a b : String) (h : a.data = b.data) : a = b := by
  cases a
  cases b
  exact congrArg String.mk h

/-- Claim C8: the key derivation is collision-free across ids — two files
with identical display names but different ids always get distinct local
filename keys, because the id is a prefix separated by an underscore and
the remainder of the key only depends on the name. -/
theorem localFileName_collision_free (f g : LibraryFile)
    (hname : f.name = g.name) (hid : f.id ≠ g.id) :
    localFileName f ≠ localFileName g := by
  intro h
  apply hid
  unfold localFileName at h
  rw [hname] at h
  have hdata : (f.id ++ "_" ++ sanitizeFileName g.name).data
      = (g.id ++ "_" ++ sanitizeFileName g.name).data := congrArg String.data h
  rw [String.data_append, String.data_append, String.data_append,
    String.data_append] at hdata
  rw [List.append_assoc, List.append_assoc] at hdata
  have hlen : f.id.data.length = g.id.data.length := by
    have := congrArg List.length hdata
    simp only [List.length_append] at this
    omega
  exact string_data_inj _ _ (List.append_inj_left hdata hlen)

/-- Concrete files for the C8 witness: identical display names,
different ids. -/
def c8FileA : LibraryFile :=
  { id := "idA", name := "report (final).pdf", url := "https://remote/a", type := "application/pdf" }

/-- Second concrete file for the C8 witness. -/
def c8FileB : LibraryFile :=
  { id := "idB", name := "report (final).pdf", url := "https://remote/b", type := "application/pdf" }

/-- Witness for C8 at the two concrete files. -/
theorem localFileName_collision_free_witness :
    localFileName c8FileA ≠ localFileName c8FileB :=
  localFileName_collision_free c8FileA c8FileB (by decide) (by decide)

/-- The user statistics record of StatsService. The counters are
modelled as integers, matching JavaScript number arithmetic. -/
structure UserStats where
  filesDownloaded : Int
  eventsAttended : Int
  monthsActive : Int
  deriving DecidableEq, Repr

/-- The months-active computation of StatsService.loadStats: the floor
of the elapsed milliseconds divided by thirty days of milliseconds,
floored at one. -/
def monthsActiveCalc (createdAtMs nowMs : Int) : Int :=
  max 1 ((nowMs - createdAtMs).fdiv 2592000000)

/-- The singleton state of StatsService: cached stats, current user id,
and the registered listener set (listeners modelled by ids). -/
structure StatsState where
  currentStats : Option UserStats
  userId : Option String
  listeners : List Nat
  deriving DecidableEq, Repr

/-- The state at module load, and the state that clear() restores. -/
def initialStatsState : StatsState :=
  { currentStats := none, userId := none, listeners := [] }

/-- One notification of StatsService.notify: the listener set it was
delivered to and the stats value delivered. -/
structure StatsNote where
  recipients : List Nat
  value : UserStats
  deriving DecidableEq, Repr

/-- An operation on the stats singleton. Backend responses are passed
explicitly: dbError true models the backend call failing, in which case
the service throws and performs no cache update or notification; the two
counts are the count-query results of loadStats (a null count is none). -/
inductive StatsOp where
  | subscribe (l : Nat)
  | unsubscribe (l : Nat)
  | load (userId : String) (createdAtMs nowMs : Int)
      (downloadsCount eventsCount : Option Nat) (dbError : Bool)
  | recordDownload (dbError : Bool)
  | recordEvent (dbError : Bool)
  | removeEvent (dbError : Bool)
  | clear
  deriving DecidableEq, Repr

/-- notify of StatsService: cache the new stats and deliver them to
every currently registered listener. -/
def statsNotify (st : StatsState) (s : UserStats) : StatsState × List StatsNote :=
  ({ st with currentStats := some s }, [{ recipients := st.listeners, value := s }])

/-- One operation of the stats singleton, mirroring StatsService method
by method: subscribe adds to the listener set, load computes fresh stats
from the count queries and notifies, the record/remove operations bump
the cached counters (when a cache exists) and notify, clear resets
everything. -/
def statsStep (st : StatsState) : StatsOp → StatsState × List StatsNote
  | .subscribe l =>
    ({ st with listeners :=
        if l ∈ st.listeners then st.listeners else st.listeners ++ [l] }, [])
  | .unsubscribe l =>
    ({ st with listeners := st.listeners.filter (fun x => x ≠ l) }, [])
  | .load uid createdAtMs nowMs dc ec dbError =>
    if dbError then ({ st with userId := some uid }, [])
    else
      statsNotify { st with userId := some uid }
        { filesDownloaded := ((dc.getD 0 : Nat) : Int),
          eventsAttended := ((ec.getD 0 : Nat) : Int),
          monthsActive := monthsActiveCalc createdAtMs nowMs }
  | .recordDownload dbError =>
    if dbError then (st, [])
    else
      match st.currentStats with
      | some s => statsNotify st { s with filesDownloaded := s.filesDownloaded + 1 }
      | none => (st, [])
  | .recordEvent dbError =>
    if dbError then (st, [])
    else
      match st.currentStats with
      | some s => statsNotify st { s with eventsAttended := s.eventsAttended + 1 }
      | none => (st, [])
  | .removeEvent dbError =>
    if dbError then (st, [])
    else
      match st.currentStats with
      | some s => statsNotify st { s with eventsAttended := max 0 (s.eventsAttended - 1) }
      | none => (st, [])
  | .clear => (initialStatsState, [])

/-- Running a sequence of operations, collecting every notification. -/
def statsRun (st : StatsState) : List StatsOp → StatsState × List StatsNote
  | [] => (st, [])
  | op :: rest =>
    let p := statsStep st op
    let q := statsRun p.1 rest
    (q.1, p.2 ++ q.2)

/-- The counter invariant of the stats record. -/
def statsInvariant (s : UserStats) : Prop :=
  0 ≤ s.filesDownloaded ∧ 0 ≤ s.eventsAttended ∧ 1 ≤ s.monthsActive

instance (s : UserStats) : Decidable (statsInvariant s) := by
  unfold statsInvariant
  infer_instance

/-- The cached stats value, when present, satisfies the counter
invariant. -/
def statsStateOk (st : StatsState) : Prop :=
  ∀ s ∈ st.currentStats, statsInvariant s

theorem statsNotify_preserves (st : StatsState) (s : UserStats)
    (hs : statsInvariant s) :
    statsStateOk (statsNotify st s).1
    ∧ ∀ n ∈ (statsNotify st s).2, statsInvariant n.value := by
  constructor
  · intro x hx
    simp [statsNotify, Option.mem_def] at hx
    subst hx
    exact hs
  · intro n hn
    simp [statsNotify] at hn
    subst hn
    exact hs

theorem statsStep_preserves (st : StatsState) (op : StatsOp) (h : statsStateOk st) :
    statsStateOk (statsStep st op).1
    ∧ ∀ n ∈ (statsStep st op).2, statsInvariant n.value := by
  cases op with
  | subscribe l =>
    exact ⟨fun s hs => h s hs, by simp [statsStep]⟩
  | unsubscribe l =>
    exact ⟨fun s hs => h s hs, by simp [statsStep]⟩
  | load uid c nw dc ec dbError =>
    cases dbError with
    | true => exact ⟨fun s hs => h s hs, by simp [statsStep]⟩
    | false =>
      exact statsNotify_preserves _ _
        ⟨Int.natCast_nonneg _, Int.natCast_nonneg _, le_max_left 1 _⟩
  | recordDownload dbError =>
    cases dbError with
    | true => exact ⟨fun s hs => h s hs, by simp [statsStep]⟩
    | false =>
      cases hcur : st.currentStats with
      | none =>
        constructor
        · intro s hs
          simp only [statsStep, hcur] at hs
          exact h s hs
        · intro n hn
          simp [statsStep, hcur] at hn
      | some s0 =>
        obtain ⟨ha, hb, hc⟩ := h s0 (by simp [hcur, Option.mem_def])
        have hinv : statsInvariant { s0 with filesDownloaded := s0.filesDownloaded + 1 } :=
          ⟨show (0 : Int) ≤ s0.filesDownloaded + 1 by omega, hb, hc⟩
        have := statsNotify_preserves st _ hinv
        constructor
        · intro s hs
          simp only [statsStep, hcur] at hs
          exact this.1 s hs
        · intro n hn
          simp only [statsStep, hcur] at hn
          exact this.2 n hn
  | recordEvent dbError =>
    cases dbError with
    | true => exact ⟨fun s hs => h s hs, by simp [statsStep]⟩
    | false =>
      cases hcur : st.currentStats with
      | none =>
        constructor
        · intro s hs
          simp only [statsStep, hcur] at hs
          exact h s hs
        · intro n hn
          simp [statsStep, hcur] at hn
      | some s0 =>
        obtain ⟨ha, hb, hc⟩ := h s0 (by simp [hcur, Option.mem_def])
        have hinv : statsInvariant { s0 with eventsAttended := s0.eventsAttended + 1 } :=
          ⟨ha, show (0 : Int) ≤ s0.eventsAttended + 1 by omega, hc⟩
        have := statsNotify_preserves st _ hinv
        constructor
        · intro s hs
          simp only [statsStep, hcur] at hs
          exact this.1 s hs
        · intro n hn
          simp only [statsStep, hcur] at hn
          exact this.2 n hn
  | removeEvent dbError =>
    cases dbError with
    | true => exact ⟨fun s hs => h s hs, by simp [statsStep]⟩
    | false =>
      cases hcur : st.currentStats with
      | none =>
        constructor
        · intro s hs
          simp only [statsStep, hcur] at hs
          exact h s hs
        · intro n hn
          simp [statsStep, hcur] at hn
      | some s0 =>
        obtain ⟨ha, hb, hc⟩ := h s0 (by simp [hcur, Option.mem_def])
        have hinv : statsInvariant
            { s0 with eventsAttended := max 0 (s0.eventsAttended - 1) } :=
          ⟨ha, le_max_left 0 _, hc⟩
        have := statsNotify_preserves st _ hinv
        constructor
        · intro s hs
          simp only [statsStep, hcur] at hs
          exact this.1 s hs
        · intro n hn
          simp only [statsStep, hcur] at hn
          exact this.2 n hn
  | clear =>
    constructor
    · intro s hs
      simp [statsStep, initialStatsState, Option.mem_def] at hs
    · intro n hn
      simp [statsStep] at hn

theorem statsRun_preserves :
    ∀ (ops : List StatsOp) (st : StatsState), statsStateOk st →
      statsStateOk (statsRun st ops).1
      ∧ ∀ n ∈ (statsRun st ops).2, statsInvariant n.value
  | [], st, h => ⟨h, by simp [statsRun]⟩
  | op :: rest, st, h => by
    obtain ⟨h1, h2⟩ := statsStep_preserves st op h
    obtain ⟨h3, h4⟩ := statsRun_preserves rest (statsStep st op).1 h1
    refine ⟨h3, ?_⟩
    intro n hn
    have hn2 : n ∈ (statsStep st op).2 ++ (statsRun (statsStep st op).1 rest).2 := hn
    rcases List.mem_append.mp hn2 with hn3 | hn3
    · exact h2 n hn3
    · exact h4 n hn3

/-- Claim C10: starting from the uninitialized singleton, after any
sequence of stats operations the cached stats value, when present, and
every value delivered to a listener satisfy filesDownloaded at least 0,
eventsAttended at least 0 and monthsActive at least 1 (removeEvent clamps
its decrement at zero, loadStats floors monthsActive at one — even for a
profile created at the very moment of the load). -/
theorem statsService_counter_invariant (ops : List StatsOp) :
    statsStateOk (statsRun initialStatsState ops).1
    ∧ (∀ n ∈ (statsRun initialStatsState ops).2, statsInvariant n.value)
    ∧ (∀ t : Int, monthsActiveCalc t t = 1) := by
  obtain ⟨h1, h2⟩ := statsRun_preserves ops initialStatsState
    (fun s hs => by simp [initialStatsState, Option.mem_def] at hs)
  refine ⟨h1, h2, fun t => ?_⟩
  simp [monthsActiveCalc, Int.sub_self, Int.zero_fdiv]

/-- Concrete operation sequence for the C10 witness: one listener, a
load returning three downloads and a null events count, a recorded
download, and an event-attendance removal that hits the zero clamp. -/
def c10Ops : List StatsOp :=
  [StatsOp.subscribe 1,
   StatsOp.load "u" 0 0 (some 3) none false,
   StatsOp.recordDownload false,
   StatsOp.removeEvent false]

/-- Witness for C10 at the concrete operation sequence: the final cached
value, one delivered value, and the months floor at a concrete time. -/
theorem statsService_counter_invariant_witness :
    statsInvariant { filesDownloaded := 4, eventsAttended := 0, monthsActive := 1 }
    ∧ statsInvariant { filesDownloaded := 3, eventsAttended := 0, monthsActive := 1 }
    ∧ monthsActiveCalc 1700000000000 1700000000000 = 1 :=
  ⟨(statsService_counter_invariant c10Ops).1
      { filesDownloaded := 4, eventsAttended := 0, monthsActive := 1 } (by decide),
   (statsService_counter_invariant c10Ops).2.1
      { recipients := [1],
        value := { filesDownloaded := 3, eventsAttended := 0, monthsActive := 1 } }
      (by decide),
   (statsService_counter_invariant c10Ops).2.2 1700000000000⟩

/-- The listener id registered by a subscribe operation, if any. -/
def subscribedId : StatsOp → Option Nat
  | .subscribe l => some l
  | _ => none

theorem statsStep_recipients (st : StatsState) (op : StatsOp) (n : StatsNote)
    (hn : n ∈ (statsStep st op).2) : n.recipients = st.listeners := by
  cases op with
  | subscribe l => simp [statsStep] at hn
  | unsubscribe l => simp [statsStep] at hn
  | load uid c nw dc ec dbError =>
    cases dbError with
    | true => simp [statsStep] at hn
    | false =>
      simp [statsStep, statsNotify] at hn
      rw [hn]
  | recordDownload dbError =>
    cases dbError with
    | true => simp [statsStep] at hn
    | false =>
      cases hcur : st.currentStats with
      | none => simp [statsStep, hcur] at hn
      | some s0 =>
        simp [statsStep, hcur, statsNotify] at hn
        rw [hn]
  | recordEvent dbError =>
    cases dbError with
    | true => simp [statsStep] at hn
    | false =>
      cases hcur : st.currentStats with
      | none => simp [statsStep, hcur] at hn
      | some s0 =>
        simp [statsStep, hcur, statsNotify] at hn
        rw [hn]
  | removeEvent dbError =>
    cases dbError with
    | true => simp [statsStep] at hn
    | false =>
      cases hcur : st.currentStats with
      | none => simp [statsStep, hcur] at hn
      | some s0 =>
        simp [statsStep, hcur, statsNotify] at hn
        rw [hn]
  | clear => simp [statsStep] at hn

theorem statsStep_listeners_sub (st : StatsState) (op : StatsOp) (l : Nat)
    (hl : l ∈ (statsStep st op).1.listeners) :
    l ∈ st.listeners ∨ subscribedId op = some l := by
  cases op with
  | subscribe x =>
    simp only [statsStep] at hl
    by_cases hx : x ∈ st.listeners
    · simp [hx] at hl
      exact Or.inl hl
    · simp [hx] at hl
      rcases hl with hl | hl
      · exact Or.inl hl
      · exact Or.inr (by simp [subscribedId, hl])
  | unsubscribe x =>
    simp only [statsStep] at hl
    exact Or.inl (List.mem_of_mem_filter hl)
  | load uid c nw dc ec dbError =>
    cases dbError with
    | true => exact Or.inl hl
    | false => exact Or.inl hl
  | recordDownload dbError =>
    cases dbError with
    | true => exact Or.inl hl
    | false =>
      cases hcur : st.currentStats with
      | none =>
        simp only [statsStep, hcur] at hl
        exact Or.inl hl
      | some s0 =>
        simp only [statsStep, hcur] at hl
        exact Or.inl hl
  | recordEvent dbError =>
    cases dbError with
    | true => exact Or.inl hl
    | false =>
      cases hcur : st.currentStats with
      | none =>
        simp only [statsStep, hcur] at hl
        exact Or.inl hl
      | some s0 =>
        simp only [statsStep, hcur] at hl
        exact Or.inl hl
  | removeEvent dbError =>
    cases dbError with
    | true => exact Or.inl hl
    | false =>
      cases hcur : st.currentStats with
      | none =>
        simp only [statsStep, hcur] at hl
        exact Or.inl hl
      | some s0 =>
        simp only [statsStep, hcur] at hl
        exact Or.inl hl
  | clear => simp [statsStep, initialStatsState] at hl

theorem statsRun_recipients_sub :
    ∀ (ops : List StatsOp) (st : StatsState) (n : StatsNote),
      n ∈ (statsRun st ops).2 → ∀ l ∈ n.recipients,
        l ∈ st.listeners ∨ l ∈ ops.filterMap subscribedId
  | [], st, n, hn, l, _ => by simp [statsRun] at hn
  | op :: rest, st, n, hn, l, hl => by
    have hn2 : n ∈ (statsStep st op).2 ++ (statsRun (statsStep st op).1 rest).2 := hn
    rcases List.mem_append.mp hn2 with hn3 | hn3
    · have := statsStep_recipients st op n hn3
      rw [this] at hl
      exact Or.inl hl
    · rcases statsRun_recipients_sub rest (statsStep st op).1 n hn3 l hl with h1 | h1
      · rcases statsStep_listeners_sub st op l h1 with h2 | h2
        · exact Or.inl h2
        · exact Or.inr (List.mem_filterMap.mpr ⟨op, List.mem_cons_self op rest, h2⟩)
      · rcases List.mem_filterMap.mp h1 with ⟨op2, hop2, hop3⟩
        exact Or.inr (List.mem_filterMap.mpr ⟨op2, List.mem_cons_of_mem op hop2, hop3⟩)

/-- Claim C5: after the clear operation (invoked on logout) the cached
stats read back as the uninitialized none and the listener set is empty;
moreover every listener reached by any notification of any subsequent
operation sequence was registered by a subscribe operation of that later
sequence, so no listener registered before the clear receives any further
notification. -/
theorem statsService_clear_resets (st : StatsState) (ops : List StatsOp) :
    (statsStep st StatsOp.clear).1.currentStats = none
    ∧ (statsStep st StatsOp.clear).1.listeners = []
    ∧ ∀ n ∈ (statsRun (statsStep st StatsOp.clear).1 ops).2, ∀ l ∈ n.recipients,
        l ∈ ops.filterMap subscribedId := by
  refine ⟨rfl, rfl, ?_⟩
  intro n hn l hl
  rcases statsRun_recipients_sub ops (statsStep st StatsOp.clear).1 n hn l hl with h | h
  · simp [statsStep, initialStatsState] at h
  · exact h

/-- Pre-clear singleton state for the C5 witness: a cached value and two
registered listeners. -/
def c5PreState : StatsState :=
  { currentStats := some { filesDownloaded := 2, eventsAttended := 2, monthsActive := 2 },
    userId := some "u", listeners := [3, 4] }

/-- Post-clear operation sequence for the C5 witness: a fresh listener
subscribes, then a load notifies. -/
def c5Ops : List StatsOp := [StatsOp.subscribe 7, StatsOp.load "u" 0 0 none none false]

/-- Witness for C5 at the concrete pre-clear state and post-clear
operations: the state resets, and the recipient of the post-clear load
notification is the listener subscribed after the clear. -/
theorem statsService_clear_resets_witness :
    (statsStep c5PreState StatsOp.clear).1.currentStats = none
    ∧ (statsStep c5PreState StatsOp.clear).1.listeners = []
    ∧ (7 : Nat) ∈ c5Ops.filterMap subscribedId := by
  have h := statsService_clear_resets c5PreState c5Ops
  exact ⟨h.1, h.2.1,
    h.2.2
      { recipients := [7],
        value := { filesDownloaded := 0, eventsAttended := 0, monthsActive := 1 } }
      (by decide) 7 (by decide)⟩

/-- The backend auth user object of the sign-up response. -/
structure AuthUser where
  id : String
  email_confirmed_at : Option String
  deriving DecidableEq, Repr

/-- The result type of the auth context operations. -/
structure AuthResult where
  success : Bool
  error : Option String
  needsEmailConfirmation : Option Bool
  message : Option String
  deriving DecidableEq, Repr

/-- The profile metadata bag passed to sign-up. -/
structure RegisterProfileData where
  name : String
  user_type : String
  department : Option String
  year : Option String
  bio : Option String
  phone : Option String
  deriving DecidableEq, Repr

/-- register of AuthContext: the email, password and profile data form
the sign-up request; the backend response (error, user object, session)
is passed explicitly and drives the outcome. A user with no
email_confirmed_at and no session yields the
needs-email-confirmation outcome. -/
def register (email password : String) (profileData : RegisterProfileData)
    (signUpError : Option String) (user : Option AuthUser)
    (session : Option String) : AuthResult :=
  match signUpError with
  | some e =>
    { success := false, error := some e, needsEmailConfirmation := none, message := none }
  | none =>
    match user with
    | none =>
      { success := false, error := some "Registration failed - no user created",
        needsEmailConfirmation := none, message := none }
    | some u =>
      if u.email_confirmed_at.isNone && session.isNone then
        { success := true, error := none, needsEmailConfirmation := some true,
          message := some "Registration successful! Please check your email and click the confirmation link to activate your account." }
      else
        { success := true, error := none, needsEmailConfirmation := some false,
          message := some "Registration successful! You can now log in." }

/-- Claim C6: when the backend returns a user object with no
email_confirmed_at and no session, register returns success with
needsEmailConfirmation true and a human-readable instruction message and
no error — an outcome distinct from both the full-success outcome and
any failure outcome (whose success flag is false). -/
theorem register_needs_confirmation (email password : String)
    (pd : RegisterProfileData) (u : AuthUser)
    (hconf : u.email_confirmed_at = none) :
    (register email password pd none (some u) none).success = true
    ∧ (register email password pd none (some u) none).needsEmailConfirmation
        = some true
    ∧ (register email password pd none (some u) none).message
        = some "Registration successful! Please check your email and click the confirmation link to activate your account."
    ∧ (register email password pd none (some u) none).error = none
    ∧ (register email password pd none (some u) none).needsEmailConfirmation
        ≠ some false := by
  simp [register, hconf]

/-- Concrete profile bag for the C6 witness. -/
def c6Profile : RegisterProfileData :=
  { name := "Ada", user_type := "student", department := none, year := none,
    bio := none, phone := none }

/-- Concrete unconfirmed backend user for the C6 witness. -/
def c6User : AuthUser := { id := "u-77", email_confirmed_at := none }

/-- Witness for C6 at the concrete registration of the spec scenario. -/
theorem register_needs_confirmation_witness :
    (register "a@x.com" "secret1" c6Profile none (some c6User) none).success = true
    ∧ (register "a@x.com" "secret1" c6Profile none (some c6User) none).needsEmailConfirmation
        = some true
    ∧ (register "a@x.com" "secret1" c6Profile none (some c6User) none).message
        = some "Registration successful! Please check your email and click the confirmation link to activate your account."
    ∧ (register "a@x.com" "secret1" c6Profile none (some c6User) none).error = none
    ∧ (register "a@x.com" "secret1" c6Profile none (some c6User) none).needsEmailConfirmation
        ≠ some false :=
  register_needs_confirmation "a@x.com" "secret1" c6Profile c6User rfl

/-- The outcome of one backend call: rows delivered, an error object
returned, or the call itself throwing. -/
inductive QueryOutcome (α : Type) where
  | ok (rows : List α)
  | err (e : String)
  | thrown (e : String)
  deriving DecidableEq, Repr

/-- A joined row as delivered to getAllPosts by its select. -/
structure FetchedPostRow where
  id : String
  title : String
  content : String
  type : PostType
  author_id : String
  created_at : String
  updated_at : String
  profiles : Option AuthorProfile
  deriving DecidableEq, Repr

/-- The derived read-side fields getAllPosts attaches to every row. -/
def addDerivedFields (r : FetchedPostRow) : PostWithProfile :=
  { id := r.id, title := r.title, content := r.content, type := r.type,
    author_id := r.author_id, created_at := r.created_at, updated_at := r.updated_at,
    profiles := r.profiles, likes_count := 0, comments_count := 0,
    user_has_liked := false }

/-- The result shape of the posts list operations. -/
structure PostsListResult where
  data : Option (List PostWithProfile)
  error : Option String
  deriving DecidableEq, Repr

/-- PostsService.getAllPosts as a function of the backend outcome. Its
try/catch converts even a thrown fault into a discriminated result, so
the Except layer, which records escaping exceptions, is always ok. -/
def getAllPosts (o : QueryOutcome FetchedPostRow) : Except String PostsListResult :=
  match o with
  | .ok rows => .ok { data := some (rows.map addDerivedFields), error := none }
  | .err e => .ok { data := none, error := some e }
  | .thrown e => .ok { data := none, error := some e }

/-- StatsService.recordDownload as a function of the backend insert
outcome: a backend error is thrown, and the catch block logs and
rethrows it (Except.error); on the no-error path the cached stats, when
present, are bumped and notified. -/
def recordDownloadService (insertError : Option String) (st : StatsState) :
    Except String (StatsState × List StatsNote) :=
  match insertError with
  | some e => .error e
  | none =>
    match st.currentStats with
    | some s => .ok (statsNotify st { s with filesDownloaded := s.filesDownloaded + 1 })
    | none => .ok (st, [])

/-- Whether an Except value carries no escaping exception. -/
def exceptIsOk {ε α : Type} : Except ε α → Bool
  | .ok _ => true
  | .error _ => false

/-- Concrete stats singleton state for the C7 counterexample. -/
def c7State : StatsState :=
  { currentStats := some { filesDownloaded := 1, eventsAttended := 1, monthsActive := 1 },
    userId := some "u", listeners := [] }

/-- Counterexample to C7 as stated: on a backend error response,
StatsService.recordDownload does not return a discriminated result — it
rethrows the error across the service boundary. -/
theorem recordDownload_throws_on_backend_error :
    recordDownloadService (some "insert failed") c7State
      = Except.error "insert failed" := rfl

/-- Claim C7 (amended): the posts service operations normalize every
backend outcome — returned error objects and thrown faults alike — to a
discriminated data/error result and never throw; the stats service
record operations, however, rethrow backend errors (their catch logs
and rethrows), returning normally only on the no-error path. -/
theorem service_error_propagation :
    (∀ o : QueryOutcome FetchedPostRow, exceptIsOk (getAllPosts o) = true)
    ∧ (∀ e : String, getAllPosts (QueryOutcome.err e)
        = Except.ok { data := none, error := some e })
    ∧ (∀ e : String, getAllPosts (QueryOutcome.thrown e)
        = Except.ok { data := none, error := some e })
    ∧ (∀ (e : String) (st : StatsState),
        recordDownloadService (some e) st = Except.error e)
    ∧ (∀ st : StatsState, exceptIsOk (recordDownloadService none st) = true) := by
  refine ⟨fun o => ?_, fun e => rfl, fun e => rfl, fun e st => rfl, fun st => ?_⟩
  · cases o <;> rfl
  · cases h : st.currentStats <;> simp [recordDownloadService, h, exceptIsOk]

end CampusConnect
